/-
Verification of the festive-snow particle engine.

Shallow embedding of the engine found in src/core/SnowEffect.js (the
canonical controller / physics variant) together with the snow-accrual
and sprite update of the second engine variant embedded in
types/index.d.ts.  JavaScript numbers are modelled as exact rationals;
the host primitives Math.random, Math.sin and Math.PI are modelled as
explicit inputs (random draws are passed in as rationals in [0,1),
Math.sin as an arbitrary function jsSin, Math.PI as a rational jsPI),
so every definition is executable and the claims quantify over the
host values that the source leaves to the environment.
-/
import Mathlib

namespace FestiveSnow

/-- Intensity profile record: INTENSITY_CONFIG values of SnowEffect.js. -/
structure IntensityConfig where
  count : ℕ
  speedRange : ℚ × ℚ
  sizeRange : ℚ × ℚ
  trees : ℕ
  wreaths : ℕ
deriving Repr, DecidableEq

/-- Static tier table of src/core/SnowEffect.js (lines 19-41): lookup is
the JS property access INTENSITY_CONFIG[level], undefined becoming none. -/
def INTENSITY_CONFIG (level : String) : Option IntensityConfig :=
  if level = "light" then
    some { count := 50, speedRange := (0.5, 1.5), sizeRange := (1, 3), trees := 5, wreaths := 3 }
  else if level = "medium" then
    some { count := 150, speedRange := (0.8, 2.5), sizeRange := (1, 4), trees := 10, wreaths := 6 }
  else if level = "heavy" then
    some { count := 300, speedRange := (1.0, 3.5), sizeRange := (1, 5), trees := 20, wreaths := 10 }
  else none

/-- Drawing surface dimensions (canvas.width / canvas.height). -/
structure Canvas where
  width : ℚ
  height : ℚ
deriving Repr, DecidableEq

/-- Drift (snowflake) particle record built by _createParticle. -/
structure Particle where
  x : ℚ
  y : ℚ
  size : ℚ
  speed : ℚ
  opacity : ℚ
  windOffset : ℚ
  windSpeed : ℚ
  rotation : ℚ
  rotationSpeed : ℚ
deriving Repr, DecidableEq

/-- Random draws consumed by one _createParticle call, each in [0,1):
depth selects the layer, the others feed the Math.random() calls of the
chosen branch and of the position / wind / rotation fields. -/
structure FlakeRand where
  depth : ℚ
  rsize : ℚ
  rspeed : ℚ
  ropacity : ℚ
  rwind : ℚ
  rx : ℚ
  ry : ℚ
  rwindOffset : ℚ
  rrot : ℚ
  rrotSpeed : ℚ
deriving Repr, DecidableEq

/-- Embeds _createParticle of src/core/SnowEffect.js (lines 164-200). -/
def _createParticle (jsPI : ℚ) (config : IntensityConfig) (canvas : Canvas)
    (r : FlakeRand) : Particle :=
  let size :=
    if r.depth < 0.33 then
      config.sizeRange.1 + r.rsize * (config.sizeRange.2 - config.sizeRange.1) * 1.5
    else if r.depth < 0.66 then
      config.sizeRange.1 + r.rsize * (config.sizeRange.2 - config.sizeRange.1)
    else
      config.sizeRange.1 + r.rsize * (config.sizeRange.2 - config.sizeRange.1) * 0.7
  let speed :=
    if r.depth < 0.33 then
      config.speedRange.1 + r.rspeed * (config.speedRange.2 - config.speedRange.1) * 1.3
    else if r.depth < 0.66 then
      config.speedRange.1 + r.rspeed * (config.speedRange.2 - config.speedRange.1)
    else
      config.speedRange.1 + r.rspeed * (config.speedRange.2 - config.speedRange.1) * 0.7
  let opacity :=
    if r.depth < 0.33 then 0.8 + r.ropacity * 0.2
    else if r.depth < 0.66 then 0.5 + r.ropacity * 0.2
    else 0.3 + r.ropacity * 0.2
  let windSpeed :=
    if r.depth < 0.33 then 0.01 + r.rwind * 0.02
    else if r.depth < 0.66 then 0.02 + r.rwind * 0.03
    else 0.03 + r.rwind * 0.04
  { x := r.rx * canvas.width
    y := r.ry * canvas.height - canvas.height
    size := size
    speed := speed
    opacity := opacity
    windOffset := r.rwindOffset * jsPI * 2
    windSpeed := windSpeed
    rotation := r.rrot * jsPI * 2
    rotationSpeed := (r.rrotSpeed - 0.5) * 0.02 }

/-- Pre-generated wreath ring segment (types/index.d.ts variant,
_createStaticWreath lines 593-605). -/
structure WreathSegment where
  angle : ℚ
  radius : ℚ
  thickness : ℚ
  color : String
deriving Repr, DecidableEq

/-- Special particle record: trees, wreaths and scripted sprites share
one loosely-typed object shape in the source; fields a given kind never
sets (undefined in JS) are fixed to 0 / empty here. -/
structure SpecialParticle where
  type : String
  x : ℚ
  y : ℚ
  vx : ℚ
  vy : ℚ
  baseY : ℚ
  waveAmplitude : ℚ
  waveFrequency : ℚ
  wavePhase : ℚ
  time : ℚ
  size : ℚ
  opacity : ℚ
  rotation : ℚ
  rotationSpeed : ℚ
  active : Bool
  static : Bool
  snowLevel : ℚ
  shape : List WreathSegment
deriving Repr, DecidableEq

/-- Random draws for one _createStaticTree call, each in [0,1). -/
structure TreeRand where
  rx : ℚ
  ry : ℚ
  rsize : ℚ
  ropacity : ℚ
deriving Repr, DecidableEq

/-- Random draws for one _createStaticWreath call: position, size and
opacity draws plus one (radius, thickness) pair per ring segment. -/
structure WreathRand where
  rx : ℚ
  ry : ℚ
  rsize : ℚ
  ropacity : ℚ
  rsegs : ℕ → ℚ × ℚ

/-- Embeds _createStaticTree of the types/index.d.ts engine variant
(lines 576-591; the src/core variant is identical except that it lacks
the snowLevel field). -/
def _createStaticTree (canvas : Canvas) (r : TreeRand) : SpecialParticle :=
  { type := "tree"
    x := r.rx * canvas.width
    y := r.ry * canvas.height
    vx := 0
    vy := 0
    baseY := 0
    waveAmplitude := 0
    waveFrequency := 0
    wavePhase := 0
    time := 0
    size := 20 + r.rsize * 15
    opacity := 0.6 + r.ropacity * 0.3
    rotation := 0
    rotationSpeed := 0
    active := true
    static := true
    snowLevel := 0
    shape := [] }

/-- Embeds _createStaticWreath of the types/index.d.ts engine variant
(lines 593-622), including the 20-segment pre-generated ring shape. -/
def _createStaticWreath (jsPI : ℚ) (canvas : Canvas) (r : WreathRand) : SpecialParticle :=
  let wreathShape := (List.range 20).map (fun (i : ℕ) =>
    { angle := ((i : ℚ) / 20) * jsPI * 2
      radius := 0.9 + (r.rsegs i).1 * 0.2
      thickness := 0.2 + (r.rsegs i).2 * 0.15
      color := if i % 2 = 0 then "#1a6b1a" else "#228B22" : WreathSegment })
  { type := "wreath"
    x := r.rx * canvas.width
    y := r.ry * canvas.height
    vx := 0
    vy := 0
    baseY := 0
    waveAmplitude := 0
    waveFrequency := 0
    wavePhase := 0
    time := 0
    size := 15 + r.rsize * 10
    opacity := 0.7 + r.ropacity * 0.2
    rotation := 0
    rotationSpeed := 0
    active := true
    static := true
    snowLevel := 0
    shape := wreathShape }

/-- Embeds _updateParticle of src/core/SnowEffect.js (lines 277-303).
jsSin stands for Math.sin and randX for the Math.random() draw used
when the particle is recycled at the bottom edge. -/
def _updateParticle (jsSin : ℚ → ℚ) (canvas : Canvas) (windGust : ℚ) (randX : ℚ)
    (p : Particle) (deltaTime : ℚ) : Particle :=
  let normalizedDelta := deltaTime / (1000 / 60)
  let y1 := p.y + p.speed * normalizedDelta
  let windOffset1 := p.windOffset + p.windSpeed * normalizedDelta
  let baseWind := jsSin windOffset1 * 0.5
  let x1 := p.x + (baseWind + windGust) * normalizedDelta
  let rotation1 := p.rotation + p.rotationSpeed * normalizedDelta
  let recycled := y1 > canvas.height + 10
  let y2 := if recycled then -10 else y1
  let x2 := if recycled then randX * canvas.width else x1
  let x3 :=
    if x2 < -10 then canvas.width + 10
    else if x2 > canvas.width + 10 then -10
    else x2
  { p with x := x3, y := y2, windOffset := windOffset1, rotation := rotation1 }

/-- Embeds _updateSpecialParticle of the types/index.d.ts engine variant
(lines 795-820).  coin models the Bernoulli draw Math.random() < 0.0005
of the snow-accrual branch and rsnow the Math.random() factor of the
increment; jsSin stands for Math.sin. -/
def _updateSpecialParticle (jsSin : ℚ → ℚ) (canvas : Canvas) (coin : Bool) (rsnow : ℚ)
    (p : SpecialParticle) (deltaTime : ℚ) : SpecialParticle :=
  if p.static then
    if coin then
      { p with snowLevel := min (p.snowLevel + rsnow * 0.2) (p.size * 0.3) }
    else p
  else
    let normalizedDelta := deltaTime / (1000 / 60)
    let x1 := p.x + p.vx * normalizedDelta
    let time1 := p.time + deltaTime
    if p.type = "sleigh" ∨ p.type = "elf" then
      let wave := jsSin (time1 * p.waveFrequency + p.wavePhase)
      let y1 := p.baseY + wave * p.waveAmplitude
      let offscreenMargin : ℚ := if p.type = "sleigh" then 200 else 100
      let active1 :=
        if x1 < -offscreenMargin ∨ x1 > canvas.width + offscreenMargin then false
        else p.active
      { p with x := x1, y := y1, time := time1, active := active1 }
    else
      { p with x := x1, time := time1 }

/-- Per-tick inputs of one _updateSpecialParticle call: elapsed time and
the two random draws of the snow-accrual branch. -/
structure SpecialTick where
  deltaTime : ℚ
  coin : Bool
  rsnow : ℚ
deriving Repr, DecidableEq

/-- Iterates _updateSpecialParticle over a finite sequence of ticks. -/
def runSpecial (jsSin : ℚ → ℚ) (canvas : Canvas) (p : SpecialParticle)
    (ticks : List SpecialTick) : SpecialParticle :=
  ticks.foldl (fun q t => _updateSpecialParticle jsSin canvas t.coin t.rsnow q t.deltaTime) p

/-- Smooth wind easing of _animate (SnowEffect.js line 253):
this.windGust += (this.windGustTarget - this.windGust) * 0.02. -/
def updateWindGust (windGust windGustTarget : ℚ) : ℚ :=
  windGust + (windGustTarget - windGust) * 0.02

/-- Gust value after n easing ticks toward a fixed target (the easing
line of _animate iterated between two target re-rolls). -/
def easeIter (windGustTarget : ℚ) (n : ℕ) (windGust : ℚ) : ℚ :=
  (fun g => updateWindGust g windGustTarget)^[n] windGust

/-- Wind portion of the controller state: the fields of SnowEffect.js
touched by the gust code (constructor lines 56-58). -/
structure WindState where
  windGust : ℚ
  windGustTarget : ℚ
  lastGustTime : ℚ
deriving Repr, DecidableEq

/-- Host inputs consumed by one wind update: the frame timestamp and the
two Math.random() draws of the re-roll branch (threshold and target). -/
structure WindInput where
  currentTime : ℚ
  randThresh : ℚ
  randGust : ℚ
deriving Repr, DecidableEq

/-- Embeds the wind-gust portion of _animate (SnowEffect.js lines
246-253): threshold-triggered target re-roll followed by the easing
step. -/
def windStep (w : WindState) (inp : WindInput) : WindState :=
  let w1 :=
    if inp.currentTime - w.lastGustTime > 5000 + inp.randThresh * 10000 then
      { w with windGustTarget := (inp.randGust - 0.5) * 4, lastGustTime := inp.currentTime }
    else w
  { w1 with windGust := w1.windGust + (w1.windGustTarget - w1.windGust) * 0.02 }

/-- Wind state after a finite run of animation frames. -/
def windRun (w : WindState) (inps : List WindInput) : WindState :=
  inps.foldl windStep w

/-- Wind state set up by the constructor: gust, target and last-gust
time all start at 0 (SnowEffect.js lines 56-58). -/
def initialWindState : WindState :=
  { windGust := 0, windGustTarget := 0, lastGustTime := 0 }

/-- Streams of random draws consumed by one _createParticles call. -/
structure CreateRands where
  flakes : ℕ → FlakeRand
  treeRands : ℕ → TreeRand
  wreathRands : ℕ → WreathRand

/-- Embeds the population build of _createParticles (SnowEffect.js lines
140-161), given the already looked-up config and the live canvas:
density halving below the 768 px small-device threshold, then the drift
flakes, the static trees and the static wreaths in order. -/
def buildPopulation (jsPI : ℚ) (config : IntensityConfig) (canvas : Canvas)
    (innerWidth : ℚ) (rnd : CreateRands) : List Particle × List SpecialParticle :=
  let isMobile := innerWidth < 768
  let count := if isMobile then config.count / 2 else config.count
  let particles := (List.range count).map (fun i => _createParticle jsPI config canvas (rnd.flakes i))
  let treeCount := if isMobile then config.trees / 2 else config.trees
  let trees := (List.range treeCount).map (fun i => _createStaticTree canvas (rnd.treeRands i))
  let wreathCount := if isMobile then config.wreaths / 2 else config.wreaths
  let wreaths := (List.range wreathCount).map (fun i => _createStaticWreath jsPI canvas (rnd.wreathRands i))
  (particles, trees ++ wreaths)

/-- Number of special particles carrying a given type tag. -/
def countType (l : List SpecialParticle) (ty : String) : ℕ :=
  (l.filter (fun p => p.type == ty)).length

/-- Controller state: the fields set up by the SnowEffect constructor
(SnowEffect.js lines 44-65).  The canvas is an Option because it is
null until init(); seasonCheck is modelled by the boolean the optional
callback would return; ctx and resizeTimeout carry no engine-visible
state and are omitted. -/
structure SnowState where
  intensity : String
  enabled : Bool
  seasonCheck : Option Bool
  canvas : Option Canvas
  particles : List Particle
  specialParticles : List SpecialParticle
  animationId : Option ℕ
  lastTime : ℚ
  isPaused : Bool
  windGust : ℚ
  windGustTarget : ℚ
  lastGustTime : ℚ
  twinkleTime : ℚ

/-- Embeds the constructor (SnowEffect.js lines 44-65): intensity
defaults to medium, enabled to false, everything else zeroed. -/
def mkSnowEffect (intensityOpt : Option String) (enabledOpt : Option Bool)
    (seasonCheckOpt : Option Bool) : SnowState :=
  { intensity := intensityOpt.getD "medium"
    enabled := enabledOpt.getD false
    seasonCheck := seasonCheckOpt
    canvas := none
    particles := []
    specialParticles := []
    animationId := none
    lastTime := 0
    isPaused := false
    windGust := 0
    windGustTarget := 0
    lastGustTime := 0
    twinkleTime := 0 }

/-- Embeds shouldDisplay (SnowEffect.js lines 71-76). -/
def shouldDisplay (s : SnowState) : Bool :=
  match s.seasonCheck with
  | some b => b
  | none => true

/-- Embeds _createParticles as a state operation (SnowEffect.js lines
138-162).  A JS exception (undefined config dereferenced, or the null
canvas dereferenced inside _createParticle — every tier has a positive
particle count, so a null canvas is always dereferenced) is modelled as
Except.error. -/
def _createParticles (jsPI : ℚ) (innerWidth : ℚ) (rnd : CreateRands)
    (s : SnowState) : Except String SnowState :=
  match INTENSITY_CONFIG s.intensity with
  | none => .error "TypeError: INTENSITY_CONFIG[this.intensity] is undefined"
  | some config =>
    match s.canvas with
    | none => .error "TypeError: this.canvas is null"
    | some canvas =>
      let pop := buildPopulation jsPI config canvas innerWidth rnd
      .ok { s with particles := pop.1, specialParticles := pop.2 }

/-- Embeds init (SnowEffect.js lines 78-84): no-op when the canvas
already exists, otherwise create the canvas then build the particles
(_bindEvents only registers host listeners and carries no state). -/
def init (jsPI : ℚ) (newCanvas : Canvas) (innerWidth : ℚ) (rnd : CreateRands)
    (s : SnowState) : Except String SnowState :=
  match s.canvas with
  | some _ => .ok s
  | none => _createParticles jsPI innerWidth rnd { s with canvas := some newCanvas }

/-- Embeds start (SnowEffect.js lines 86-93): now is performance.now()
and newId the handle returned by requestAnimationFrame. -/
def start (s : SnowState) (now : ℚ) (newId : ℕ) : SnowState :=
  if s.canvas = none ∨ s.animationId ≠ none then s
  else
    { s with
      isPaused := false
      lastTime := now
      lastGustTime := now
      animationId := some newId }

/-- Embeds pause (SnowEffect.js lines 95-101): set the paused flag, then
cancel the pending frame callback when one exists. -/
def pause (s : SnowState) : SnowState :=
  let s1 := { s with isPaused := true }
  match s1.animationId with
  | some _ => { s1 with animationId := none }
  | none => s1

/-- Embeds _cleanup (SnowEffect.js lines 898-911): drop the canvas and
both particle collections (listener removal is host-side only). -/
def _cleanup (s : SnowState) : SnowState :=
  { s with
    canvas := none
    particles := []
    specialParticles := []
    animationId := none }

/-- Embeds stop (SnowEffect.js lines 103-106). -/
def stop (s : SnowState) : SnowState :=
  _cleanup (pause s)

/-- Embeds setIntensity (SnowEffect.js lines 108-113): silently return
on an unknown tier, otherwise store the tier and rebuild the particle
population. -/
def setIntensity (jsPI : ℚ) (innerWidth : ℚ) (rnd : CreateRands)
    (s : SnowState) (level : String) : Except String SnowState :=
  if level ∈ (["light", "medium", "heavy"] : List String) then
    _createParticles jsPI innerWidth rnd { s with intensity := level }
  else
    .ok s

/-- Embeds _handleVisibility (SnowEffect.js lines 890-896):
documentHidden is document.hidden at the event, now and newId feed the
start call of the show branch. -/
def _handleVisibility (s : SnowState) (documentHidden : Bool) (now : ℚ)
    (newId : ℕ) : SnowState :=
  if documentHidden then pause s
  else if s.enabled && !s.isPaused then start s now newId
  else s

/-- Running means the frame loop is active: a pending animation frame on
a live canvas with the paused flag clear. -/
def isRunning (s : SnowState) : Bool :=
  s.canvas.isSome && s.animationId.isSome && !s.isPaused

/-- One easing step taken from a value at or below the target lands
between the current value and the target. -/
theorem updateWindGust_le {g t : ℚ} (h : g ≤ t) :
    g ≤ updateWindGust g t ∧ updateWindGust g t ≤ t := by
  unfold updateWindGust
  constructor <;> nlinarith

/-- One easing step taken from a value at or above the target lands
between the target and the current value. -/
theorem updateWindGust_ge {g t : ℚ} (h : t ≤ g) :
    t ≤ updateWindGust g t ∧ updateWindGust g t ≤ g := by
  unfold updateWindGust
  constructor <;> nlinarith

/-- Iterated easing from below the target never exceeds the target. -/
theorem easeIter_le_target {g t : ℚ} (h : g ≤ t) (n : ℕ) : easeIter t n g ≤ t := by
  induction n with
  | zero => exact h
  | succ k ih =>
    have := (updateWindGust_le ih).2
    simpa [easeIter, Function.iterate_succ_apply'] using this

/-- Iterated easing from above the target never drops below the target. -/
theorem easeIter_ge_target {g t : ℚ} (h : t ≤ g) (n : ℕ) : t ≤ easeIter t n g := by
  induction n with
  | zero => exact h
  | succ k ih =>
    have := (updateWindGust_ge ih).1
    simpa [easeIter, Function.iterate_succ_apply'] using this

/-- Claim C8: every wind-gust easing tick moves the gust by at most 0.02
of its distance to the target, and between target re-rolls the iterated
easing moves monotonically toward the target without overshooting it. -/
theorem C8_wind_gust_smooth_convergence (g t : ℚ) :
    |updateWindGust g t - g| ≤ 0.02 * |t - g|
    ∧ (g ≤ t → ∀ n : ℕ,
        easeIter t n g ≤ easeIter t (n + 1) g ∧ easeIter t (n + 1) g ≤ t)
    ∧ (t ≤ g → ∀ n : ℕ,
        easeIter t (n + 1) g ≤ easeIter t n g ∧ t ≤ easeIter t (n + 1) g) := by
  refine ⟨?_, ?_, ?_⟩
  · have h1 : updateWindGust g t - g = (t - g) * 0.02 := by
      unfold updateWindGust; ring
    rw [h1, abs_mul, abs_of_nonneg (by norm_num : (0 : ℚ) ≤ 0.02), mul_comm]
  · intro h n
    have hle := easeIter_le_target h n
    have hstep := updateWindGust_le hle
    constructor
    · simpa [easeIter, Function.iterate_succ_apply'] using hstep.1
    · simpa [easeIter, Function.iterate_succ_apply'] using hstep.2
  · intro h n
    have hge := easeIter_ge_target h n
    have hstep := updateWindGust_ge hge
    constructor
    · simpa [easeIter, Function.iterate_succ_apply'] using hstep.2
    · simpa [easeIter, Function.iterate_succ_apply'] using hstep.1

/-- Witness for C8 at the concrete pair gust 0, target 1. -/
theorem C8_wind_gust_smooth_convergence_witness :
    |updateWindGust 0 1 - 0| ≤ 0.02 * |(1 : ℚ) - 0|
    ∧ ((0 : ℚ) ≤ 1 → ∀ n : ℕ,
        easeIter 1 n 0 ≤ easeIter 1 (n + 1) 0 ∧ easeIter 1 (n + 1) 0 ≤ 1)
    ∧ ((1 : ℚ) ≤ 0 → ∀ n : ℕ,
        easeIter 1 (n + 1) 0 ≤ easeIter 1 n 0 ∧ (1 : ℚ) ≤ easeIter 1 (n + 1) 0) :=
  C8_wind_gust_smooth_convergence 0 1

/-- One frame of the wind update keeps gust and target inside [-2, 2]
when the target draw lies in [0, 1]. -/
theorem windStep_bounds {w : WindState} {inp : WindInput}
    (hg1 : -2 ≤ w.windGust) (hg2 : w.windGust ≤ 2)
    (ht1 : -2 ≤ w.windGustTarget) (ht2 : w.windGustTarget ≤ 2)
    (hr1 : 0 ≤ inp.randGust) (hr2 : inp.randGust ≤ 1) :
    (-2 ≤ (windStep w inp).windGust ∧ (windStep w inp).windGust ≤ 2)
    ∧ (-2 ≤ (windStep w inp).windGustTarget ∧ (windStep w inp).windGustTarget ≤ 2) := by
  unfold windStep
  split <;> dsimp only <;>
    refine ⟨⟨by nlinarith, by nlinarith⟩, by nlinarith, by nlinarith⟩

/-- Folding the wind update over any frame sequence with target draws in
[0, 1] keeps gust and target inside [-2, 2]. -/
theorem windRun_bounds (inps : List WindInput)
    (hr : ∀ i ∈ inps, 0 ≤ i.randGust ∧ i.randGust ≤ 1) :
    ∀ w : WindState, -2 ≤ w.windGust → w.windGust ≤ 2 →
      -2 ≤ w.windGustTarget → w.windGustTarget ≤ 2 →
      (-2 ≤ (windRun w inps).windGust ∧ (windRun w inps).windGust ≤ 2)
      ∧ (-2 ≤ (windRun w inps).windGustTarget ∧ (windRun w inps).windGustTarget ≤ 2) := by
  induction inps with
  | nil =>
    intro w hg1 hg2 ht1 ht2
    exact ⟨⟨hg1, hg2⟩, ht1, ht2⟩
  | cons a l ih =>
    intro w hg1 hg2 ht1 ht2
    have ha := hr a (List.mem_cons_self a l)
    have hstep := windStep_bounds hg1 hg2 ht1 ht2 ha.1 ha.2
    have hrest := ih (fun i hi => hr i (List.mem_cons_of_mem a hi))
    simpa [windRun, List.foldl_cons] using
      hrest (windStep w a) hstep.1.1 hstep.1.2 hstep.2.1 hstep.2.2

/-- Claim C10: starting from the constructor wind state (gust 0), every
run of animation frames whose target draws lie in [0, 1] keeps the
current wind-gust scalar inside [-2, 2]. -/
theorem C10_wind_gust_stays_in_range (inps : List WindInput)
    (hr : ∀ i ∈ inps, 0 ≤ i.randGust ∧ i.randGust ≤ 1) :
    -2 ≤ (windRun initialWindState inps).windGust
    ∧ (windRun initialWindState inps).windGust ≤ 2 :=
  (windRun_bounds inps hr initialWindState (by norm_num [initialWindState])
    (by norm_num [initialWindState]) (by norm_num [initialWindState])
    (by norm_num [initialWindState])).1

/-- Witness for C10 on a concrete two-frame run that re-rolls the
target to the extreme value 2 and then eases toward it. -/
theorem C10_wind_gust_stays_in_range_witness :
    -2 ≤ (windRun initialWindState
      [{ currentTime := 6000, randThresh := 0, randGust := 1 },
       { currentTime := 6016, randThresh := 1, randGust := 0 }]).windGust
    ∧ (windRun initialWindState
      [{ currentTime := 6000, randThresh := 0, randGust := 1 },
       { currentTime := 6016, randThresh := 1, randGust := 0 }]).windGust ≤ 2 :=
  C10_wind_gust_stays_in_range _ (by decide)

/-- All-zero random draws for one flake, used for concrete instances. -/
def zeroFlakeRand : FlakeRand :=
  { depth := 0, rsize := 0, rspeed := 0, ropacity := 0, rwind := 0,
    rx := 0, ry := 0, rwindOffset := 0, rrot := 0, rrotSpeed := 0 }

/-- All-zero random streams for one _createParticles call. -/
def zeroCreateRands : CreateRands :=
  { flakes := fun _ => zeroFlakeRand
    treeRands := fun _ => { rx := 0, ry := 0, rsize := 0, ropacity := 0 }
    wreathRands := fun _ => { rx := 0, ry := 0, rsize := 0, ropacity := 0, rsegs := fun _ => (0, 0) } }

/-- Claim C2: the engine throws when setIntensity is called with a valid
tier before init(): _createParticle dereferences the null canvas.  The
constructor state has canvas = none, and the heavy rebuild hits the
TypeError branch instead of completing. -/
theorem C2_setIntensity_before_init_throws :
    setIntensity 3 1024 zeroCreateRands (mkSnowEffect none none none) "heavy"
      = Except.error "TypeError: this.canvas is null" := rfl

/-- Concrete Ready-but-never-started state: initialized canvas, no
pending frame, paused flag clear. -/
def exampleReadyUnpaused : SnowState :=
  { mkSnowEffect none none none with canvas := some { width := 1024, height := 768 } }

/-- Claim C3 counterexample: pause() in the Ready (not Running) state is
not a no-op — it changes the observable paused flag from false to true. -/
theorem C3_pause_not_noop_counterexample :
    isRunning exampleReadyUnpaused = false
    ∧ exampleReadyUnpaused.isPaused = false
    ∧ (pause exampleReadyUnpaused).isPaused = true
    ∧ pause exampleReadyUnpaused ≠ exampleReadyUnpaused := by
  refine ⟨rfl, rfl, rfl, fun h => ?_⟩
  exact Bool.noConfusion (show true = false from congrArg SnowState.isPaused h)

/-- Claim C3 (amended): pause() outside the Running state (no pending
frame callback) sets the paused flag to true and leaves every other
field — particle collections included — unchanged; in particular it is
a full no-op when the flag was already set. -/
theorem C3_pause_only_sets_paused_flag (s : SnowState) (h : s.animationId = none) :
    pause s = { s with isPaused := true } := by
  cases s with
  | mk i e sc c ps sp aid lt ip wg wt lg tw =>
    dsimp only at h
    subst h
    rfl

/-- Witness for the amended C3 at the concrete Ready state. -/
theorem C3_pause_only_sets_paused_flag_witness :
    pause exampleReadyUnpaused = { exampleReadyUnpaused with isPaused := true } :=
  C3_pause_only_sets_paused_flag exampleReadyUnpaused rfl

/-- Concrete Running controller reached by the constructor (enabled),
init (canvas attached) and start (frame 1 requested at time 0). -/
def exampleRunning : SnowState :=
  start { mkSnowEffect (some "medium") (some true) none with
          canvas := some { width := 1024, height := 768 } } 0 1

/-- Claim C1: from a Running, enabled controller the event sequence
hide-then-show does not end Running — the hide branch calls pause(),
which sets the same isPaused flag that the show branch tests, so the
show branch refuses to restart the loop.  The code diverges from the
spec sentence that a visibility regain resumes an enabled effect that
the user never explicitly paused. -/
theorem C1_hide_then_show_does_not_resume :
    isRunning exampleRunning = true
    ∧ exampleRunning.enabled = true
    ∧ isRunning (_handleVisibility (_handleVisibility exampleRunning true 100 2) false 200 3)
        = false
    ∧ (_handleVisibility (_handleVisibility exampleRunning true 100 2) false 200 3).animationId
        = none := by
  refine ⟨rfl, rfl, rfl, rfl⟩

/-- Every particle built by _createStaticTree carries the tree tag, so
the tree count of a built batch is its length. -/
theorem countType_trees (canvas : Canvas) (f : ℕ → TreeRand) (n : ℕ) (ty : String) :
    countType ((List.range n).map (fun i => _createStaticTree canvas (f i))) ty
      = if ty = "tree" then n else 0 := by
  unfold countType
  split
  · rename_i h
    subst h
    rw [List.filter_eq_self.mpr, List.length_map, List.length_range]
    intro a ha
    obtain ⟨i, _, rfl⟩ := List.mem_map.mp ha
    rfl
  · rename_i h
    rw [List.filter_eq_nil_iff.mpr, List.length_nil]
    intro a ha
    obtain ⟨i, _, rfl⟩ := List.mem_map.mp ha
    simpa [_createStaticTree] using fun hc => h hc.symm

/-- Every particle built by _createStaticWreath carries the wreath tag,
so the wreath count of a built batch is its length. -/
theorem countType_wreaths (jsPI : ℚ) (canvas : Canvas) (f : ℕ → WreathRand) (n : ℕ)
    (ty : String) :
    countType ((List.range n).map (fun i => _createStaticWreath jsPI canvas (f i))) ty
      = if ty = "wreath" then n else 0 := by
  unfold countType
  split
  · rename_i h
    subst h
    rw [List.filter_eq_self.mpr, List.length_map, List.length_range]
    intro a ha
    obtain ⟨i, _, rfl⟩ := List.mem_map.mp ha
    rfl
  · rename_i h
    rw [List.filter_eq_nil_iff.mpr, List.length_nil]
    intro a ha
    obtain ⟨i, _, rfl⟩ := List.mem_map.mp ha
    simpa [_createStaticWreath] using fun hc => h hc.symm

/-- Counting a tag distributes over list append. -/
theorem countType_append (l1 l2 : List SpecialParticle) (ty : String) :
    countType (l1 ++ l2) ty = countType l1 ty + countType l2 ty := by
  unfold countType
  rw [List.filter_append, List.length_append]

/-- Claim C5: for every tier profile, building the population on a
viewport strictly below the 768 px small-device threshold yields drift,
tree and wreath counts each floor-halved, and at or above the threshold
yields the raw profile counts. -/
theorem C5_buildPopulation_counts (jsPI : ℚ) (config : IntensityConfig) (canvas : Canvas)
    (w : ℚ) (rnd : CreateRands) :
    (w < 768 →
      (buildPopulation jsPI config canvas w rnd).1.length = config.count / 2
      ∧ countType (buildPopulation jsPI config canvas w rnd).2 "tree" = config.trees / 2
      ∧ countType (buildPopulation jsPI config canvas w rnd).2 "wreath" = config.wreaths / 2)
    ∧ (768 ≤ w →
      (buildPopulation jsPI config canvas w rnd).1.length = config.count
      ∧ countType (buildPopulation jsPI config canvas w rnd).2 "tree" = config.trees
      ∧ countType (buildPopulation jsPI config canvas w rnd).2 "wreath" = config.wreaths) := by
  unfold buildPopulation
  dsimp only
  constructor
  · intro hw
    simp only [if_pos hw]
    refine ⟨by rw [List.length_map, List.length_range], ?_, ?_⟩ <;>
      rw [countType_append, countType_trees, countType_wreaths] <;> simp
  · intro hw
    simp only [if_neg (not_lt.mpr hw)]
    refine ⟨by rw [List.length_map, List.length_range], ?_, ?_⟩ <;>
      rw [countType_append, countType_trees, countType_wreaths] <;> simp

/-- Heavy tier profile record of src/core/SnowEffect.js. -/
def heavyConfig : IntensityConfig :=
  { count := 300, speedRange := (1.0, 3.5), sizeRange := (1, 5), trees := 20, wreaths := 10 }

/-- Witness for C5: the heavy profile on a 500 px viewport gives 150
flakes, 10 trees and 5 wreaths. -/
theorem C5_buildPopulation_counts_witness :
    ((500 : ℚ) < 768 →
      (buildPopulation 3 heavyConfig { width := 500, height := 600 } 500 zeroCreateRands).1.length
        = 300 / 2
      ∧ countType (buildPopulation 3 heavyConfig { width := 500, height := 600 } 500
          zeroCreateRands).2 "tree" = 20 / 2
      ∧ countType (buildPopulation 3 heavyConfig { width := 500, height := 600 } 500
          zeroCreateRands).2 "wreath" = 10 / 2)
    ∧ ((768 : ℚ) ≤ 500 →
      (buildPopulation 3 heavyConfig { width := 500, height := 600 } 500 zeroCreateRands).1.length
        = 300
      ∧ countType (buildPopulation 3 heavyConfig { width := 500, height := 600 } 500
          zeroCreateRands).2 "tree" = 20
      ∧ countType (buildPopulation 3 heavyConfig { width := 500, height := 600 } 500
          zeroCreateRands).2 "wreath" = 10) :=
  C5_buildPopulation_counts 3 heavyConfig { width := 500, height := 600 } 500 zeroCreateRands

/-- Drift-flake count of a built population: the profile count, floor
halved below the small-device threshold. -/
theorem buildPopulation_flake_length (jsPI : ℚ) (config : IntensityConfig)
    (canvas : Canvas) (w : ℚ) (rnd : CreateRands) :
    (buildPopulation jsPI config canvas w rnd).1.length
      = if w < 768 then config.count / 2 else config.count := by
  unfold buildPopulation
  dsimp only
  split <;> rw [List.length_map, List.length_range]

/-- Claim C4: in every initialized state setIntensity with an unknown
tier string returns the state untouched (tier and both particle
collections included), while setIntensity with the heavy tier rebuilds
the drift-particle collection at the heavy profile count of 300,
floor-halved to 150 below the 768 px viewport threshold. -/
theorem C4_setIntensity_unknown_noop_heavy_rebuild (jsPI innerWidth : ℚ)
    (rnd : CreateRands) (s : SnowState) (c : Canvas) (hinit : s.canvas = some c) :
    (∀ level, level ∉ (["light", "medium", "heavy"] : List String) →
      setIntensity jsPI innerWidth rnd s level = .ok s)
    ∧ ∃ s2, setIntensity jsPI innerWidth rnd s "heavy" = .ok s2
        ∧ s2.intensity = "heavy"
        ∧ s2.particles.length = if innerWidth < 768 then 150 else 300 := by
  constructor
  · intro level hlevel
    unfold setIntensity
    rw [if_neg hlevel]
  · cases s with
    | mk i e sc cv ps sp aid lt ip wg wt lg tw =>
      dsimp only at hinit
      subst hinit
      refine ⟨_, rfl, rfl, ?_⟩
      dsimp only
      rw [buildPopulation_flake_length]
      split <;> rfl

/-- Witness for C4 at the concrete initialized Ready state on a 1024 px
viewport. -/
theorem C4_setIntensity_witness :
    (∀ level, level ∉ (["light", "medium", "heavy"] : List String) →
      setIntensity 3 1024 zeroCreateRands exampleReadyUnpaused level
        = .ok exampleReadyUnpaused)
    ∧ ∃ s2, setIntensity 3 1024 zeroCreateRands exampleReadyUnpaused "heavy" = .ok s2
        ∧ s2.intensity = "heavy"
        ∧ s2.particles.length = if (1024 : ℚ) < 768 then 150 else 300 :=
  C4_setIntensity_unknown_noop_heavy_rebuild 3 1024 zeroCreateRands
    exampleReadyUnpaused { width := 1024, height := 768 } rfl

/-- Claim C6: with positive speed and positive elapsed time, a drift
particle falls strictly while the bottom recycle boundary is not
crossed, and on the tick where it crosses surfaceHeight + 10 it is
reset to a negative y and an x re-randomized into [0, surfaceWidth). -/
theorem C6_drift_fall_and_recycle (jsSin : ℚ → ℚ) (canvas : Canvas)
    (windGust randX : ℚ) (p : Particle) (dt : ℚ)
    (hspeed : 0 < p.speed) (hdt : 0 < dt)
    (hr0 : 0 ≤ randX) (hr1 : randX < 1) (hw : 0 < canvas.width) :
    (p.y + p.speed * (dt / (1000 / 60)) ≤ canvas.height + 10 →
      p.y < (_updateParticle jsSin canvas windGust randX p dt).y)
    ∧ (canvas.height + 10 < p.y + p.speed * (dt / (1000 / 60)) →
      (_updateParticle jsSin canvas windGust randX p dt).y < 0
      ∧ 0 ≤ (_updateParticle jsSin canvas windGust randX p dt).x
      ∧ (_updateParticle jsSin canvas windGust randX p dt).x < canvas.width) := by
  have hnorm : 0 < dt / (1000 / 60) := by positivity
  have hfall : 0 < p.speed * (dt / (1000 / 60)) := mul_pos hspeed hnorm
  have hx0 : 0 ≤ randX * canvas.width := mul_nonneg hr0 hw.le
  have hx1 : randX * canvas.width < canvas.width := by nlinarith
  unfold _updateParticle
  dsimp only
  constructor
  · intro h1
    rw [if_neg (not_lt.mpr h1)]
    linarith
  · intro h2
    rw [if_pos h2, if_pos h2, if_neg (by intro hc; linarith), if_neg (by intro hc; linarith)]
    refine ⟨by norm_num, hx0, hx1⟩

/-- Witness for C6: a unit-speed flake on a 100 by 100 surface with a
16 ms tick, once from y = 0 (falls) and once from y = 109.7 (recycles). -/
theorem C6_drift_fall_and_recycle_witness :
    (((0 : ℚ) + 1 * (16 / (1000 / 60)) ≤ 100 + 10 →
      (0 : ℚ) < (_updateParticle (fun _ => 0) { width := 100, height := 100 } 0 (1 / 2)
        { x := 50, y := 0, size := 2, speed := 1, opacity := 1, windOffset := 0,
          windSpeed := 0, rotation := 0, rotationSpeed := 0 } 16).y)
    ∧ ((100 : ℚ) + 10 < 0 + 1 * (16 / (1000 / 60)) →
      (_updateParticle (fun _ => 0) { width := 100, height := 100 } 0 (1 / 2)
        { x := 50, y := 0, size := 2, speed := 1, opacity := 1, windOffset := 0,
          windSpeed := 0, rotation := 0, rotationSpeed := 0 } 16).y < 0
      ∧ 0 ≤ (_updateParticle (fun _ => 0) { width := 100, height := 100 } 0 (1 / 2)
        { x := 50, y := 0, size := 2, speed := 1, opacity := 1, windOffset := 0,
          windSpeed := 0, rotation := 0, rotationSpeed := 0 } 16).x
      ∧ (_updateParticle (fun _ => 0) { width := 100, height := 100 } 0 (1 / 2)
        { x := 50, y := 0, size := 2, speed := 1, opacity := 1, windOffset := 0,
          windSpeed := 0, rotation := 0, rotationSpeed := 0 } 16).x < 100)) :=
  C6_drift_fall_and_recycle (fun _ => 0) { width := 100, height := 100 } 0 (1 / 2)
    { x := 50, y := 0, size := 2, speed := 1, opacity := 1, windOffset := 0,
      windSpeed := 0, rotation := 0, rotationSpeed := 0 } 16
    (by norm_num) (by norm_num) (by norm_num) (by norm_num) (by norm_num)

/-- Claim C7: on a tick that does not recycle, a drift particle whose
moved x leaves the left margin gets x set to exactly
surfaceWidth + 10, and one leaving the right margin gets x set to
exactly -10. -/
theorem C7_horizontal_wrap_exact (jsSin : ℚ → ℚ) (canvas : Canvas)
    (windGust randX : ℚ) (p : Particle) (dt : ℚ)
    (hnorec : p.y + p.speed * (dt / (1000 / 60)) ≤ canvas.height + 10)
    (hw : 0 < canvas.width) :
    (p.x + (jsSin (p.windOffset + p.windSpeed * (dt / (1000 / 60))) * 0.5 + windGust)
        * (dt / (1000 / 60)) < -10 →
      (_updateParticle jsSin canvas windGust randX p dt).x = canvas.width + 10)
    ∧ (p.x + (jsSin (p.windOffset + p.windSpeed * (dt / (1000 / 60))) * 0.5 + windGust)
        * (dt / (1000 / 60)) > canvas.width + 10 →
      (_updateParticle jsSin canvas windGust randX p dt).x = -10) := by
  unfold _updateParticle
  dsimp only
  rw [if_neg (not_lt.mpr hnorec)]
  constructor
  · intro hleft
    rw [if_pos hleft]
  · intro hright
    rw [if_neg (by intro hc; linarith), if_pos hright]

/-- Witness for C7: a flake pushed from x = -5 to x = -21 by a gust of
-1 over a 16 ms tick wraps to exactly width + 10 = 110. -/
theorem C7_horizontal_wrap_exact_witness :
    (((-5 : ℚ) + ((fun _ => (0 : ℚ)) ((0 : ℚ) + 0 * (16 / (1000 / 60))) * 0.5 + -17)
        * (16 / (1000 / 60)) < -10 →
      (_updateParticle (fun _ => 0) { width := 100, height := 100 } (-17) 0
        { x := -5, y := 0, size := 2, speed := 1, opacity := 1, windOffset := 0,
          windSpeed := 0, rotation := 0, rotationSpeed := 0 } 16).x = 100 + 10)
    ∧ ((-5 : ℚ) + ((fun _ => (0 : ℚ)) ((0 : ℚ) + 0 * (16 / (1000 / 60))) * 0.5 + -17)
        * (16 / (1000 / 60)) > 100 + 10 →
      (_updateParticle (fun _ => 0) { width := 100, height := 100 } (-17) 0
        { x := -5, y := 0, size := 2, speed := 1, opacity := 1, windOffset := 0,
          windSpeed := 0, rotation := 0, rotationSpeed := 0 } 16).x = -10)) :=
  C7_horizontal_wrap_exact (fun _ => 0) { width := 100, height := 100 } (-17) 0
    { x := -5, y := 0, size := 2, speed := 1, opacity := 1, windOffset := 0,
      windSpeed := 0, rotation := 0, rotationSpeed := 0 } 16
    (by norm_num) (by norm_num)

/-- One tick on a static decoration keeps the static flag and size,
never lowers snowLevel, and keeps it at or below the size cap. -/
theorem updateSpecial_static_step (jsSin : ℚ → ℚ) (canvas : Canvas) (coin : Bool)
    (rsnow : ℚ) (p : SpecialParticle) (dt : ℚ) (hstatic : p.static = true)
    (hr : 0 ≤ rsnow) (hcap : p.snowLevel ≤ p.size * 0.3) :
    (_updateSpecialParticle jsSin canvas coin rsnow p dt).static = true
    ∧ (_updateSpecialParticle jsSin canvas coin rsnow p dt).size = p.size
    ∧ p.snowLevel ≤ (_updateSpecialParticle jsSin canvas coin rsnow p dt).snowLevel
    ∧ (_updateSpecialParticle jsSin canvas coin rsnow p dt).snowLevel ≤ p.size * 0.3 := by
  unfold _updateSpecialParticle
  rw [if_pos hstatic]
  cases coin with
  | false => exact ⟨hstatic, rfl, le_refl _, hcap⟩
  | true =>
    refine ⟨hstatic, rfl, le_min (by nlinarith) hcap, min_le_right _ _⟩

/-- Any finite tick run on a static decoration with nonnegative
increment draws preserves the static flag and size, never lowers
snowLevel, and keeps it at or below the size cap. -/
theorem runSpecial_static_mono (jsSin : ℚ → ℚ) (canvas : Canvas)
    (ticks : List SpecialTick) (hr : ∀ t ∈ ticks, 0 ≤ t.rsnow) :
    ∀ p : SpecialParticle, p.static = true → p.snowLevel ≤ p.size * 0.3 →
      (runSpecial jsSin canvas p ticks).static = true
      ∧ (runSpecial jsSin canvas p ticks).size = p.size
      ∧ p.snowLevel ≤ (runSpecial jsSin canvas p ticks).snowLevel
      ∧ (runSpecial jsSin canvas p ticks).snowLevel ≤ p.size * 0.3 := by
  induction ticks with
  | nil =>
    intro p hstatic hcap
    exact ⟨hstatic, rfl, le_refl _, hcap⟩
  | cons a l ih =>
    intro p hstatic hcap
    have ha := hr a (List.mem_cons_self a l)
    have hstep := updateSpecial_static_step jsSin canvas a.coin a.rsnow p a.deltaTime
      hstatic ha hcap
    have hrest := ih (fun t ht => hr t (List.mem_cons_of_mem a ht))
      (_updateSpecialParticle jsSin canvas a.coin a.rsnow p a.deltaTime)
      hstep.1 (by rw [hstep.2.1]; exact hstep.2.2.2)
    have hrun : runSpecial jsSin canvas p (a :: l)
        = runSpecial jsSin canvas
            (_updateSpecialParticle jsSin canvas a.coin a.rsnow p a.deltaTime) l := by
      simp [runSpecial]
    rw [hrun]
    refine ⟨hrest.1, ?_, le_trans hstep.2.2.1 hrest.2.2.1, ?_⟩
    · rw [hrest.2.1, hstep.2.1]
    · have := hrest.2.2.2
      rw [hstep.2.1] at this
      exact this

/-- Claim C9: a static decoration starts with snowLevel 0 at creation
and, over every finite tick sequence with nonnegative increment draws,
its snowLevel never decreases from one tick to the next and never
exceeds the size-derived cap size * 0.3. -/
theorem C9_static_snow_level_mono_capped (jsSin : ℚ → ℚ) (canvas : Canvas)
    (p : SpecialParticle) (hstatic : p.static = true) (hsnow : p.snowLevel = 0)
    (hsize : 0 ≤ p.size) (ticks : List SpecialTick)
    (hr : ∀ t ∈ ticks, 0 ≤ t.rsnow) (n : ℕ) :
    (runSpecial jsSin canvas p (ticks.take n)).snowLevel
      ≤ (runSpecial jsSin canvas p (ticks.take (n + 1))).snowLevel
    ∧ (runSpecial jsSin canvas p (ticks.take n)).snowLevel ≤ p.size * 0.3 := by
  have hcap : p.snowLevel ≤ p.size * 0.3 := by
    rw [hsnow]; nlinarith
  have hrtake : ∀ t ∈ ticks.take n, 0 ≤ t.rsnow :=
    fun t ht => hr t (List.take_subset n ticks ht)
  have hq := runSpecial_static_mono jsSin canvas (ticks.take n) hrtake p hstatic hcap
  refine ⟨?_, hq.2.2.2⟩
  have hsplit : ticks.take (n + 1) = ticks.take n ++ ticks[n]?.toList :=
    List.take_succ
  have happend : runSpecial jsSin canvas p (ticks.take (n + 1))
      = runSpecial jsSin canvas (runSpecial jsSin canvas p (ticks.take n))
          (ticks[n]?.toList) := by
    rw [hsplit]
    simp [runSpecial, List.foldl_append]
  rw [happend]
  have hrtail : ∀ t ∈ ticks[n]?.toList, 0 ≤ t.rsnow := by
    intro t ht
    rw [Option.mem_toList] at ht
    exact hr t (List.getElem?_mem ht)
  have hqcap : (runSpecial jsSin canvas p (ticks.take n)).snowLevel
      ≤ (runSpecial jsSin canvas p (ticks.take n)).size * 0.3 := by
    rw [hq.2.1]; exact hq.2.2.2
  exact (runSpecial_static_mono jsSin canvas (ticks[n]?.toList) hrtail
    (runSpecial jsSin canvas p (ticks.take n)) hq.1 hqcap).2.2.1

/-- Witness for C9: the concrete tree built from all-zero draws
(size 20, snowLevel 0) run for one accruing 16 ms tick. -/
theorem C9_static_snow_level_mono_capped_witness :
    (runSpecial (fun _ => 0) { width := 100, height := 100 }
        (_createStaticTree { width := 100, height := 100 }
          { rx := 0, ry := 0, rsize := 0, ropacity := 0 })
        ([{ deltaTime := 16, coin := true, rsnow := 1 / 2 }].take 0)).snowLevel
      ≤ (runSpecial (fun _ => 0) { width := 100, height := 100 }
        (_createStaticTree { width := 100, height := 100 }
          { rx := 0, ry := 0, rsize := 0, ropacity := 0 })
        ([{ deltaTime := 16, coin := true, rsnow := 1 / 2 }].take 1)).snowLevel
    ∧ (runSpecial (fun _ => 0) { width := 100, height := 100 }
        (_createStaticTree { width := 100, height := 100 }
          { rx := 0, ry := 0, rsize := 0, ropacity := 0 })
        ([{ deltaTime := 16, coin := true, rsnow := 1 / 2 }].take 0)).snowLevel
      ≤ (_createStaticTree { width := 100, height := 100 }
          { rx := 0, ry := 0, rsize := 0, ropacity := 0 }).size * 0.3 :=
  C9_static_snow_level_mono_capped (fun _ => 0) { width := 100, height := 100 }
    (_createStaticTree { width := 100, height := 100 }
      { rx := 0, ry := 0, rsize := 0, ropacity := 0 })
    rfl rfl (by norm_num [_createStaticTree])
    [{ deltaTime := 16, coin := true, rsnow := 1 / 2 }]
    (by intro t ht; simp at ht; subst ht; norm_num) 0

end FestiveSnow
